import Mathlib

/-!
Verification of the pixel-harmony melody generator.

This file gives a shallow embedding, in Lean 4, of the core of the
pixel-harmony repository (`pixelharmony/generator.py`,
`pixelharmony/fitness_generator.py`, `pixelharmony/__init__.py`) and proves
or refutes the specification claims about it.

Modelling conventions:
* Python `int` is `Int`, Python `float` scores are `Rat` (exact arithmetic
  standing in for IEEE floats; all constants involved are decimal fractions).
* Python lists are Lean `List`s; `melody[i]` on an index known to be in
  bounds is `List.getD i 0`.
* Code that can raise returns `Except`; a raised exception is `.error`.
* Randomness (`random.random`, `random.choice`, `random.randint`,
  `random.sample`) is passed in explicitly as oracle streams; a theorem
  quantifies over all streams, with hypotheses recording the ranges the
  Python primitives guarantee (`random.random() ∈ [0,1)`,
  `randint(a,b) ∈ [a,b]`, `choice` returns an element of its list).
-/

section PixelHarmony

attribute [local semireducible] Rat.add Rat.mul Rat.inv Rat.sub

/-- Rational made from a natural number (kernel-reducible cast). -/
def natRat (n : Nat) : Rat := mkRat (Int.ofNat n) 1

/-- Rational made from an integer (kernel-reducible cast). -/
def intRat (i : Int) : Rat := mkRat i 1

/-- Python `min(a, b)` on two numbers: the first argument on ties. -/
def pyMin (a b : Rat) : Rat := if a ≤ b then a else b

/-- Python `max(a, b)` on two numbers: the first argument on ties. -/
def pyMax (a b : Rat) : Rat := if b ≤ a then a else b

/-- ASCII lowering of one character, as Python `str.lower` acts on ASCII. -/
def lowerChar (c : Char) : Char :=
  if 'A' ≤ c ∧ c ≤ 'Z' then Char.ofNat (c.toNat + 32) else c

/-- Python `s.lower()` restricted to ASCII text, as a character list. -/
def lowerL (s : String) : List Char := s.data.map lowerChar

/-- Does the list start with the given pattern (helper for substring search)? -/
def startsWithL : List Char → List Char → Bool
  | _, [] => true
  | [], _ :: _ => false
  | h :: t, p :: ps => h == p && startsWithL t ps

/-- Python `pat in s` on strings: contiguous substring containment. -/
def containsSub : List Char → List Char → Bool
  | [], p => p.isEmpty
  | h :: t, p => startsWithL (h :: t) p || containsSub t p

/-- Python `random.choice(l)`: the oracle supplies an arbitrary index, and
the modulus keeps it in range, so the result is always an element of a
nonempty `l`. -/
def choose (l : List Int) (idx : Nat) : Int := l.getD (idx % l.length) 0

/-- Generator.C_MAJOR from `generator.py`. -/
def C_MAJOR : List Int := [60, 62, 64, 65, 67, 69, 71, 72]

/-- Generator.COMMON_PROGRESSIONS from `generator.py`. -/
def COMMON_PROGRESSIONS : List (List Int) :=
  [[60, 64, 67], [67, 71, 74], [65, 69, 72], [62, 65, 69], [65, 69, 72], [65, 69, 72]]

/-- Generator.RHYTHMIC_PATTERNS from `generator.py`. -/
def RHYTHMIC_PATTERNS : List (List Int) :=
  [[2, 1, 1, 2, 2], [3, 3, 2], [2, 2, 1, 1, 2]]

/-- Python exceptions that the embedded evaluator code can raise. -/
inductive EvalErr
  | zeroDivision
deriving DecidableEq

instance exceptDecEq {ε α : Type} [DecidableEq ε] [DecidableEq α] :
    DecidableEq (Except ε α) := fun a b =>
  match a, b with
  | .ok x, .ok y =>
    if h : x = y then .isTrue (by rw [h]) else .isFalse (fun hh => h (by injection hh))
  | .error x, .error y =>
    if h : x = y then .isTrue (by rw [h]) else .isFalse (fun hh => h (by injection hh))
  | .ok _, .error _ => .isFalse (fun hh => Except.noConfusion hh)
  | .error _, .ok _ => .isFalse (fun hh => Except.noConfusion hh)

/-- Interval reward used inside `Generator._evaluate_contour`: stepwise
motion scores 0.5, small leaps 0.3 or 0.2, large leaps −0.1. -/
def intervalScore (d : Int) : Rat :=
  if d ≤ 2 then mkRat 1 2
  else if d ≤ 4 then mkRat 3 10
  else if d ≤ 7 then mkRat 1 5
  else mkRat (-1) 10

/-- Generator._evaluate_contour. Counts direction changes over interior
positions, then adds `10 * (1 - |changes - optimal|/optimal)` with
`optimal = len // 4` (a `ZeroDivisionError` when `len // 4 = 0`, i.e. for
melodies shorter than 4 notes), then adds the per-interval rewards, and
clamps the result from above at 20 with `min(20, score)`. -/
def evaluate_contour (m : List Int) : Except EvalErr Rat :=
  let changes : Nat :=
    ((List.range' 1 (m.length - 2)).filter (fun i =>
      decide ((m.getD i 0 - m.getD (i - 1) 0) * (m.getD (i + 1) 0 - m.getD i 0) < 0))).length
  let optimal : Nat := m.length / 4
  if optimal = 0 then .error .zeroDivision
  else
    let base : Rat :=
      natRat 10 * (1 - intRat ((Int.ofNat changes - Int.ofNat optimal).natAbs) / natRat optimal)
    let intervals : Rat :=
      ((List.range (m.length - 1)).map (fun i =>
        intervalScore (Int.ofNat (m.getD i 0 - m.getD (i + 1) 0).natAbs))).sum
    .ok (pyMin (natRat 20) (base + intervals))

/-- Generator._matches_rhythm_pattern: the window matches when its first
`len(pattern) - 1` absolute consecutive differences equal the corresponding
pattern entries. -/
def matches_rhythm_pattern (sub pattern : List Int) : Bool :=
  sub.length == pattern.length &&
  (List.range (pattern.length - 1)).all (fun i =>
    Int.ofNat (sub.getD (i + 1) 0 - sub.getD i 0).natAbs == pattern.getD i 0)

/-- Pattern-match part of `Generator._evaluate_rhythm`: each window of the
melody starting strictly before `len - len(pattern)` that matches a
reference rhythmic pattern adds 5 points. -/
def rhythmPatternScore (m : List Int) : Rat :=
  (RHYTHMIC_PATTERNS.map (fun p =>
    natRat (((List.range (m.length - p.length)).filter (fun i =>
      matches_rhythm_pattern ((m.drop i).take p.length) p)).length) * natRat 5)).sum

/-- Syncopation part of `Generator._evaluate_rhythm`: 2 points for every
odd, non-final position whose note differs from both neighbours. -/
def syncopationScore (m : List Int) : Rat :=
  natRat (((List.range m.length).filter (fun i =>
    i % 2 == 1 && i + 1 < m.length &&
    !(m.getD i 0 == m.getD (i - 1) 0) && !(m.getD i 0 == m.getD (i + 1) 0))).length) * natRat 2

/-- Generator._evaluate_rhythm: pattern bonuses plus syncopation bonuses,
clamped from above at 20. -/
def evaluate_rhythm (m : List Int) : Rat :=
  pyMin (natRat 20) (rhythmPatternScore m + syncopationScore m)

/-- Generator._is_good_cadence on the final four notes: last note 60 with a
67 or 71 immediately before it. -/
def is_good_cadence (notes : List Int) : Bool :=
  notes.getD (notes.length - 1) 0 == 60 &&
  (notes.getD (notes.length - 2) 0 == 67 || notes.getD (notes.length - 2) 0 == 71)

/-- Chord-membership part of `Generator._evaluate_harmony`: one point per
(note, chord) pair whose pitch classes meet. -/
def harmonyChordScore (m : List Int) : Rat :=
  (m.map (fun note =>
    natRat ((COMMON_PROGRESSIONS.filter (fun chord =>
      chord.any (fun c => c % 12 == note % 12))).length))).sum

/-- Generator._evaluate_harmony: chord-tone count plus a 10-point cadence
bonus on the final four notes, clamped from above at 20. -/
def evaluate_harmony (m : List Int) : Rat :=
  pyMin (natRat 20)
    (harmonyChordScore m +
      (if 4 ≤ m.length && is_good_cadence (m.drop (m.length - 4)) then natRat 10 else 0))

/-- Generator._similar_motifs: equal length and identical consecutive
interval signatures (transposition-invariant). -/
def similar_motifs (m1 m2 : List Int) : Bool :=
  m1.length == m2.length &&
  ((List.range (m1.length - 1)).map (fun i => m1.getD (i + 1) 0 - m1.getD i 0)
    == (List.range (m2.length - 1)).map (fun i => m2.getD (i + 1) 0 - m2.getD i 0))

/-- Motif-repetition part of `Generator._evaluate_phrasing`: 3 points for
every pair `i < j` of similar 4-note windows with `j ∈ [i+4, len-5]`. -/
def motifScore (m : List Int) : Rat :=
  ((List.range (m.length - 4)).map (fun i =>
    natRat (((List.range' (i + 4) ((m.length - 4) - (i + 4))).filter (fun j =>
      similar_motifs ((m.drop i).take 4) ((m.drop j).take 4))).length) * natRat 3)).sum

/-- Generator._evaluate_phrasing: for melodies of length at least 8, a
5-point bonus when the two halves differ in length by at most 1 (always the
case for the floor-division split) plus the motif bonuses; clamped from
above at 20. -/
def evaluate_phrasing (m : List Int) : Rat :=
  pyMin (natRat 20)
    (if 8 ≤ m.length then
      (if ((Int.ofNat (m.take (m.length / 2)).length)
            - Int.ofNat (m.drop (m.length / 2)).length).natAbs ≤ 1 then natRat 5 else 0)
        + motifScore m
    else 0)

/-- Generator._evaluate_tension_resolution: for melodies of length at least
4, one point per middle-half note outside the tonic triad {60, 64, 67} and
10 points when the final note is in the triad; clamped from above at 20. -/
def evaluate_tension_resolution (m : List Int) : Rat :=
  pyMin (natRat 20)
    (if 4 ≤ m.length then
      natRat (((List.range' (m.length / 4) (3 * m.length / 4 - m.length / 4)).filter (fun i =>
        !(m.getD i 0 == 60 || m.getD i 0 == 64 || m.getD i 0 == 67))).length)
        + (if m.getD (m.length - 1) 0 == 60 || m.getD (m.length - 1) 0 == 64
              || m.getD (m.length - 1) 0 == 67 then natRat 10 else 0)
    else 0)

/-- Generator._evaluate_fitness (Variant B): the sum of the five sub-scores;
the contour term is evaluated first and its `ZeroDivisionError` propagates. -/
def evaluate_fitness (m : List Int) : Except EvalErr Rat :=
  match evaluate_contour m with
  | .error e => .error e
  | .ok c =>
    .ok (c + evaluate_rhythm m + evaluate_harmony m + evaluate_phrasing m
        + evaluate_tension_resolution m)

/-- DefaultFitnessFunction.fitness (Variant A) from `fitness_generator.py`. -/
def default_fitness (m : List Int) : Rat :=
  if m.isEmpty then 0
  else
    ((List.range m.length).map (fun i =>
      (if 60 ≤ m.getD i 0 && m.getD i 0 ≤ 72 then (1 : Rat) else 0) +
      (if 0 < i then
        (if (m.getD i 0 - m.getD (i - 1) 0).natAbs ≤ 2 then mkRat 1 2
         else if (m.getD i 0 - m.getD (i - 1) 0).natAbs ≤ 4 then mkRat 3 10 else 0)
       else 0))).sum
    + (if m.getD 0 0 == 60 || m.getD 0 0 == 67 then (2 : Rat) else 0)
    + (if m.getD (m.length - 1) 0 == 60 then (2 : Rat) else 0)

/-- Criteria dictionary built by
`GeneratedFitnessFunction._parse_prompt_response`. -/
structure Criteria where
  preferredRange : Int × Int
  stepwiseMotionWeight : Rat
  cadenceWeight : Rat
  phraseLength : Nat
  preferConsonantIntervals : Bool
deriving DecidableEq

/-- Default criteria dictionary as first assigned in
`_parse_prompt_response` before any keyword adjustment. -/
def defaultCriteria : Criteria :=
  { preferredRange := (60, 72)
    stepwiseMotionWeight := mkRat 1 2
    cadenceWeight := 2
    phraseLength := 4
    preferConsonantIntervals := true }

/-- GeneratedFitnessFunction._parse_prompt_response: keyword-triggered
overrides of the default criteria, applied to the lower-cased description. -/
def parse_prompt_response (description : String) : Criteria :=
  let desc := lowerL description
  let c0 := defaultCriteria
  let c1 :=
    if containsSub desc "high range".data then
      { c0 with preferredRange := (67, 79) }
    else if containsSub desc "low range".data then
      { c0 with preferredRange := (48, 60) }
    else c0
  let c2 :=
    if containsSub desc "strong emphasis on stepwise motion".data then
      { c1 with stepwiseMotionWeight := mkRat 4 5 }
    else c1
  let c3 :=
    if containsSub desc "strong cadences".data then
      { c2 with cadenceWeight := 3 }
    else c2
  if containsSub desc "longer phrases".data then
    { c3 with phraseLength := 8 }
  else if containsSub desc "short motifs".data then
    { c3 with phraseLength := 2 }
  else c3

/-- Python `max` of a nonempty list of integers (used for the melodic arch
test in `_is_good_phrase`). -/
def listMaxI (l : List Int) : Int :=
  l.foldl (fun a b => if a < b then b else a) (l.getD 0 0)

/-- GeneratedFitnessFunction._is_good_phrase: a melodic arch (maximum not at
either end) or some repeated consecutive interval. -/
def is_good_phrase (phrase : List Int) : Bool :=
  if phrase.isEmpty then false
  else
    let hasArch := !(listMaxI phrase == phrase.getD 0 0)
        && !(listMaxI phrase == phrase.getD (phrase.length - 1) 0)
    let intervals := (List.range (phrase.length - 1)).map (fun i =>
      Int.ofNat (phrase.getD (i + 1) 0 - phrase.getD i 0).natAbs)
    let hasPattern := intervals.dedup.length < intervals.length
    hasArch || hasPattern

/-- Starting indices visited by Python `range(0, len - plen + 1, plen)`
(the phrase windows of `GeneratedFitnessFunction.fitness`; `plen` is 2, 4
or 8 for every parsed criteria set, so the step is never zero). -/
def phraseStarts (len plen : Nat) : List Nat :=
  (List.range ((len + 1 - plen + plen - 1) / plen)).map (· * plen)

/-- GeneratedFitnessFunction.fitness (Variant C), driven by the parsed
criteria: range membership, stepwise motion, good phrases, and a cadence
bonus when the final interval is 1, 2 or 5. -/
def generated_fitness (c : Criteria) (m : List Int) : Rat :=
  if m.isEmpty then 0
  else
    (m.map (fun note =>
      if c.preferredRange.1 ≤ note && note ≤ c.preferredRange.2 then (1 : Rat) else 0)).sum
    + ((List.range (m.length - 1)).map (fun i =>
        if (m.getD i 0 - m.getD (i + 1) 0).natAbs ≤ 2 then c.stepwiseMotionWeight
        else if (m.getD i 0 - m.getD (i + 1) 0).natAbs ≤ 4 then
          c.stepwiseMotionWeight * mkRat 1 2
        else 0)).sum
    + natRat ((phraseStarts m.length c.phraseLength).filter (fun i =>
        is_good_phrase ((m.drop i).take c.phraseLength))).length
    + (if 2 ≤ m.length &&
          ((m.getD (m.length - 2) 0 - m.getD (m.length - 1) 0).natAbs == 1
            || (m.getD (m.length - 2) 0 - m.getD (m.length - 1) 0).natAbs == 2
            || (m.getD (m.length - 2) 0 - m.getD (m.length - 1) 0).natAbs == 5)
        then c.cadenceWeight else 0)

/-- Outcome of the work done inside `FitnessGenerator.__init__`
(`dotenv.load_dotenv()` plus `anthropic.Anthropic()`): either success or one
of the transient external failures the `except` clause names. -/
inductive InitOutcome
  | ok
  | connectionError
  | apiError
deriving DecidableEq

/-- Exceptions escaping `FitnessGenerator.__init__` (the `except` clause
logs and then re-raises). -/
inductive InitError
  | connectionError
  | apiError
deriving DecidableEq

/-- Outcome of the external rubric call made inside
`FitnessGenerator.generate_fitness`, including the failures its `except`
clause catches (network and auth errors from the transport, `ValueError` and
`TypeError` from a malformed response). -/
inductive ExternalOutcome
  | ok (content : String)
  | connectionError
  | apiError
  | valueError
  | typeError
deriving DecidableEq

/-- Is the external outcome one of the caught failures? -/
def ExternalOutcome.isFailure : ExternalOutcome → Bool
  | .ok _ => false
  | _ => true

/-- The fitness evaluator returned by `FitnessGenerator.generate_fitness`:
either the Variant A default or a Variant C generated evaluator carrying its
rubric description. -/
inductive FitnessFn
  | defaultFn
  | generatedFn (description : String)
deriving DecidableEq

/-- Score method of a returned evaluator (`DefaultFitnessFunction.fitness`
or `GeneratedFitnessFunction.fitness` over its parsed criteria). -/
def FitnessFn.score : FitnessFn → List Int → Rat
  | .defaultFn, m => default_fitness m
  | .generatedFn d, m => generated_fitness (parse_prompt_response d) m

/-- FitnessGenerator.__init__: on a connection or API error it logs and
re-raises, so the failure escapes to the caller. -/
def fitness_generator_init : InitOutcome → Except InitError Unit
  | .ok => .ok ()
  | .connectionError => .error .connectionError
  | .apiError => .error .apiError

/-- FitnessGenerator.generate_fitness: a successful external call yields a
`GeneratedFitnessFunction` built from the response content; every caught
failure falls back to `DefaultFitnessFunction`. -/
def generate_fitness : ExternalOutcome → FitnessFn
  | .ok content => .generatedFn content
  | _ => .defaultFn

/-- Obtaining a Variant C evaluator end to end: construct the
`FitnessGenerator` (which may re-raise) and then call `generate_fitness`. -/
def obtainEvaluator (i : InitOutcome) (e : ExternalOutcome) : Except InitError FitnessFn :=
  match fitness_generator_init i with
  | .error err => .error err
  | .ok _ => .ok (generate_fitness e)

/-- Generator._mutate, one position at a time: position `i` consumes the
draw `r i` of `random.random()` and, when it fires, the `random.choice`
oracle `c i`. -/
def mutateAux (scale : List Int) (rate : Rat) (r : Nat → Rat) (c : Nat → Nat) :
    Nat → List Int → List Int
  | _, [] => []
  | i, note :: rest =>
    (if r i < rate then choose scale (c i) else note) :: mutateAux scale rate r c (i + 1) rest

/-- Generator._mutate: per-position stochastic replacement from the scale. -/
def mutate (scale : List Int) (m : List Int) (rate : Rat) (r : Nat → Rat) (c : Nat → Nat) :
    List Int :=
  mutateAux scale rate r c 0 m

/-- Generator._crossover with the drawn cut point made explicit:
`parent1[:cut] + parent2[cut:]`. No length check is performed. -/
def crossover (p1 p2 : List Int) (cut : Nat) : List Int :=
  p1.take cut ++ p2.drop cut

/-- Generator._crossover including its only failure mode: the call
`random.randint(1, len(parent1) - 1)` raises `ValueError` when the range is
empty, i.e. when `len(parent1) < 2`; `cut` stands for the value drawn, which
`randint` keeps in `[1, len(parent1) - 1]`. -/
inductive GenErr
  | valueError
deriving DecidableEq

/-- Generator._crossover as the caller sees it (raising modelled as
`Except`). -/
def crossover_full (p1 p2 : List Int) (cut : Nat) : Except GenErr (List Int) :=
  if p1.length - 1 < 1 then .error .valueError
  else .ok (crossover p1 p2 cut)

/-- Generator._create_random_melody: boundary-note policy — position 0 is
drawn from {60, 67} (tonic/dominant), the final position from {60, 64}
(tonic/third), every other position from the scale. -/
def create_random_melody (scale : List Int) (len : Nat) (b : Nat → Nat) : List Int :=
  (List.range len).map (fun i =>
    if i = 0 then choose [60, 67] (b i)
    else if i = len - 1 then choose [60, 64] (b i)
    else choose scale (b i))

/-- Generator._initialize_population: `psize` melodies of length `len`,
every note drawn from the scale. -/
def initialize_population (scale : List Int) (len psize : Nat) (idx : Nat → Nat → Nat) :
    List (List Int) :=
  (List.range psize).map (fun p => (List.range len).map (fun i => choose scale (idx p i)))

/-- Python `max(items, key=f)` on a list: the first element with the maximal
key (Python raises on an empty list; the empty case below is unreachable in
the modelled runs and returns a dummy). -/
def pyMaxBy (f : List Int → Rat) : List (List Int) → List Int
  | [] => []
  | x :: xs => xs.foldl (fun acc y => if f acc < f y then y else acc) x

/-- Generator._tournament_select: `sample` is the list returned by
`random.sample(population, tournament_size)`; the winner is the member with
the highest fitness. -/
def tournament_select (f : List Int → Rat) (sample : List (List Int)) : List Int :=
  pyMaxBy f sample

/-- Stable insertion used to model Python `sorted(..., key=f, reverse=True)`:
an element moves ahead only of strictly worse elements, so equal keys keep
their original order, exactly like Python's stable sort. -/
def insertDesc (f : List Int → Rat) (x : List Int) : List (List Int) → List (List Int)
  | [] => [x]
  | y :: ys => if f y ≤ f x then x :: y :: ys else y :: insertDesc f x ys

/-- Python `sorted(population, key=f, reverse=True)` (stable, descending). -/
def sortDesc (f : List Int → Rat) (pop : List (List Int)) : List (List Int) :=
  pop.foldr (insertDesc f) []

/-- Random draws consumed by one child produced inside the breeding loop of
`Generator.create_melody`: the crossover-vs-fresh coin, the two tournament
samples, the crossover cut, the fresh-melody choice stream, and the
mutation streams. -/
structure ChildRand where
  coin : Rat
  sample1 : List (List Int)
  sample2 : List (List Int)
  cut : Nat
  fresh : Nat → Nat
  mutR : Nat → Rat
  mutC : Nat → Nat

/-- One non-elite child of the breeding loop: with `coin < 0.7` a crossover
of two tournament winners, otherwise a fresh random melody; in both cases
mutated at the current rate. -/
def makeChild (f : List Int → Rat) (scale : List Int) (len : Nat) (rate : Rat)
    (cr : ChildRand) : List Int :=
  let child :=
    if cr.coin < mkRat 7 10 then
      crossover (tournament_select f cr.sample1) (tournament_select f cr.sample2) cr.cut
    else
      create_random_melody scale len cr.fresh
  mutate scale child rate cr.mutR cr.mutC

/-- The `while len(new_population) < population_size` loop, unrolled by the
number of children still to add; children are appended in order. -/
def buildChildren (mk : Nat → List Int) : Nat → List (List Int)
  | 0 => []
  | n + 1 => buildChildren mk n ++ [mk n]

/-- Per-run random oracle for `Generator.create_melody`: child draws are
indexed by generation and child slot. -/
structure GARandom where
  child : Nat → Nat → ChildRand

/-- EvolutionState of one run: current population, best fitness ever seen
(`none` models the initial `float("-inf")`), the stagnation counter, and the
current mutation rate. -/
structure EvoState where
  population : List (List Int)
  bestFitness : Option Rat
  gwi : Nat
  rate : Rat

/-- Python `current_best_fitness > best_fitness` where `best_fitness` starts
as `float("-inf")`. -/
def gtBest (current : Rat) : Option Rat → Bool
  | none => true
  | some b => decide (b < current)

/-- One generation of `Generator.create_melody`: sort by fitness, compare
the best score with the best ever, update the stagnation counter, adapt the
mutation rate, keep the top two, and refill with bred children. `g` is the
generation index used to address the random oracle. Python indexes
`population[0]` (raising on an empty population); the model reads the head
with a default, which agrees with Python whenever `psize ≥ 1`. -/
def evolveGen (f : List Int → Rat) (scale : List Int) (len psize : Nat) (rnd : GARandom)
    (g : Nat) (s : EvoState) : EvoState :=
  let sorted := sortDesc f s.population
  let current := f (sorted.getD 0 [])
  let best := if gtBest current s.bestFitness then some current else s.bestFitness
  let gwi := if gtBest current s.bestFitness then 0 else s.gwi + 1
  let rate :=
    if 20 < gwi then pyMin (mkRat 1 2) (s.rate * mkRat 11 10)
    else pyMax (mkRat 1 10) (s.rate * mkRat 9 10)
  let elite := sorted.take 2
  let newPop := elite ++ buildChildren
    (fun slot => makeChild f scale len rate (rnd.child g slot)) (psize - elite.length)
  { population := newPop, bestFitness := best, gwi := gwi, rate := rate }

/-- The `for gen in range(generations)` loop with its early stop: returns
the final state, the number of generations actually executed, and whether
the stagnation break fired. The break is tested after the new population is
built, exactly as in the source. -/
def runGens (f : List Int → Rat) (scale : List Int) (len psize : Nat) (rnd : GARandom) :
    Nat → Nat → EvoState → EvoState × Nat × Bool
  | 0, _, s => (s, 0, false)
  | n + 1, g, s =>
    let s' := evolveGen f scale len psize rnd g s
    if 100 < s'.gwi then (s', 1, true)
    else
      let r := runGens f scale len psize rnd n (g + 1) s'
      (r.1, r.2.1 + 1, r.2.2)

/-- Generator.create_melody: initialize the population, run the generation
loop, and return the fittest member of the final population together with
the generation count and the early-stop flag. -/
def create_melody (f : List Int → Rat) (scale : List Int) (len psize generations : Nat)
    (rate0 : Rat) (initIdx : Nat → Nat → Nat) (rnd : GARandom) :
    List Int × Nat × Bool :=
  let pop := initialize_population scale len psize initIdx
  let r := runGens f scale len psize rnd generations 0
    { population := pop, bestFitness := none, gwi := 0, rate := rate0 }
  (pyMaxBy f r.1.population, r.2.1, r.2.2)

/-- Exception raised by `pixelharmony/__init__.py`. -/
inductive PkgError
  | environmentError
deriving DecidableEq

/-- Module body of `pixelharmony/__init__.py` after `load_dotenv()`: raise
`EnvironmentError` when `ANTHROPIC_API_KEY` is absent from the environment,
succeed otherwise. `env` is the list of environment variable names after
loading `.env`. -/
def package_init (env : List String) : Except PkgError Unit :=
  if env.contains "ANTHROPIC_API_KEY" then .ok () else .error .environmentError

/-! ## Helper lemmas -/

theorem natRat_cast (n : Nat) : natRat n = (n : Rat) := by
  simp [natRat, mkRat, Rat.normalize]

theorem natRat_nonneg (n : Nat) : 0 ≤ natRat n := by
  rw [natRat_cast]; positivity

theorem pyMin_le_left (a b : Rat) : pyMin a b ≤ a := by
  unfold pyMin; split
  · exact le_refl a
  · exact le_of_not_le (by assumption)

theorem pyMin_nonneg {a b : Rat} (ha : 0 ≤ a) (hb : 0 ≤ b) : 0 ≤ pyMin a b := by
  unfold pyMin; split <;> assumption

theorem natRat_twenty : natRat 20 = (20 : Rat) := by
  rw [natRat_cast]; norm_num

theorem pyMin20_le (x : Rat) : pyMin (natRat 20) x ≤ 20 := by
  calc pyMin (natRat 20) x ≤ natRat 20 := pyMin_le_left _ _
  _ = 20 := natRat_twenty

theorem rhythmPatternScore_nonneg (m : List Int) : 0 ≤ rhythmPatternScore m := by
  apply List.sum_nonneg
  intro x hx
  simp only [rhythmPatternScore, List.mem_map] at hx
  obtain ⟨p, _, rfl⟩ := hx
  exact mul_nonneg (natRat_nonneg _) (natRat_nonneg _)

theorem syncopationScore_nonneg (m : List Int) : 0 ≤ syncopationScore m :=
  mul_nonneg (natRat_nonneg _) (natRat_nonneg _)

theorem evaluate_rhythm_nonneg (m : List Int) : 0 ≤ evaluate_rhythm m :=
  pyMin_nonneg (natRat_nonneg _)
    (add_nonneg (rhythmPatternScore_nonneg m) (syncopationScore_nonneg m))

theorem harmonyChordScore_nonneg (m : List Int) : 0 ≤ harmonyChordScore m := by
  apply List.sum_nonneg
  intro x hx
  simp only [harmonyChordScore, List.mem_map] at hx
  obtain ⟨note, _, rfl⟩ := hx
  exact natRat_nonneg _

theorem evaluate_harmony_nonneg (m : List Int) : 0 ≤ evaluate_harmony m := by
  refine pyMin_nonneg (natRat_nonneg _) (add_nonneg (harmonyChordScore_nonneg m) ?_)
  split
  · exact natRat_nonneg _
  · exact le_refl 0

theorem motifScore_nonneg (m : List Int) : 0 ≤ motifScore m := by
  apply List.sum_nonneg
  intro x hx
  simp only [motifScore, List.mem_map] at hx
  obtain ⟨i, _, rfl⟩ := hx
  exact mul_nonneg (natRat_nonneg _) (natRat_nonneg _)

theorem evaluate_phrasing_nonneg (m : List Int) : 0 ≤ evaluate_phrasing m := by
  refine pyMin_nonneg (natRat_nonneg _) ?_
  split
  · refine add_nonneg ?_ (motifScore_nonneg m)
    split
    · exact natRat_nonneg _
    · exact le_refl 0
  · exact le_refl 0

theorem evaluate_tension_resolution_nonneg (m : List Int) :
    0 ≤ evaluate_tension_resolution m := by
  refine pyMin_nonneg (natRat_nonneg _) ?_
  split
  · refine add_nonneg (natRat_nonneg _) ?_
    split
    · exact natRat_nonneg _
    · exact le_refl 0
  · exact le_refl 0

theorem evaluate_rhythm_le (m : List Int) : evaluate_rhythm m ≤ 20 := pyMin20_le _

theorem evaluate_harmony_le (m : List Int) : evaluate_harmony m ≤ 20 := pyMin20_le _

theorem evaluate_phrasing_le (m : List Int) : evaluate_phrasing m ≤ 20 := pyMin20_le _

theorem evaluate_tension_resolution_le (m : List Int) :
    evaluate_tension_resolution m ≤ 20 := pyMin20_le _

theorem evaluate_contour_le (m : List Int) (c : Rat) (h : evaluate_contour m = .ok c) :
    c ≤ 20 := by
  by_cases hop : m.length / 4 = 0
  · simp [evaluate_contour, hop] at h
  · simp only [evaluate_contour, hop, if_false, ite_false, Except.ok.injEq] at h
    rw [← h]
    exact pyMin20_le _

theorem evaluate_fitness_le (m : List Int) (t : Rat) (h : evaluate_fitness m = .ok t) :
    t ≤ 100 := by
  unfold evaluate_fitness at h
  cases hc : evaluate_contour m with
  | error e => rw [hc] at h; exact absurd h (by simp)
  | ok c =>
    rw [hc] at h
    injection h with h
    rw [← h]
    have h1 := evaluate_contour_le m c hc
    have h2 := evaluate_rhythm_le m
    have h3 := evaluate_harmony_le m
    have h4 := evaluate_phrasing_le m
    have h5 := evaluate_tension_resolution_le m
    linarith

/-! ## Claim theorems -/

/-- C1 (counterexample): the claim that no exception escapes while obtaining
a Variant C evaluator is false at a concrete input — a transient external
failure (connection error) raised while constructing the `FitnessGenerator`
is re-raised, so the caller receives an exception, not a Variant A
evaluator. -/
theorem C1_counterexample :
    obtainEvaluator InitOutcome.connectionError (ExternalOutcome.ok "")
      = Except.error InitError.connectionError := by decide

/-- C1 (amended): every failure of the external rubric call caught inside
`generate_fitness` (network/auth error or malformed response) yields the
Variant A default evaluator with no exception escaping, but a transient
external failure raised while constructing the `FitnessGenerator` itself is
re-raised to the caller. -/
theorem C1_fallback_amended (e : ExternalOutcome) (he : e.isFailure = true) :
    obtainEvaluator InitOutcome.ok e = Except.ok FitnessFn.defaultFn ∧
    FitnessFn.defaultFn.score = default_fitness ∧
    (∀ i : InitOutcome, i ≠ InitOutcome.ok →
      ∃ err, obtainEvaluator i e = Except.error err) := by
  refine ⟨?_, rfl, ?_⟩
  · cases e with
    | ok c => exact Bool.noConfusion he
    | connectionError => rfl
    | apiError => rfl
    | valueError => rfl
    | typeError => rfl
  · intro i hi
    cases i with
    | ok => exact absurd rfl hi
    | connectionError => exact ⟨InitError.connectionError, rfl⟩
    | apiError => exact ⟨InitError.apiError, rfl⟩

/-- C1 (witness): the amended theorem applied to the concrete caught failure
`connectionError`. -/
theorem C1_fallback_witness :
    ExternalOutcome.connectionError.isFailure = true ∧
    obtainEvaluator InitOutcome.ok ExternalOutcome.connectionError
      = Except.ok FitnessFn.defaultFn :=
  ⟨by decide, (C1_fallback_amended ExternalOutcome.connectionError (by decide)).1⟩

/-- C2 (counterexample): the contour sub-score of Variant B is not bounded
below by 0 — on the wide zig-zag melody `[60,72,60,72,60,72,60,72]` it
evaluates to −10.7, outside `[0,20]`. -/
theorem C2_counterexample :
    evaluate_contour [60, 72, 60, 72, 60, 72, 60, 72] = Except.ok (mkRat (-107) 10) ∧
    mkRat (-107) 10 < 0 := ⟨by decide, by decide⟩

/-- C2 (amended): for every melody, the rhythm, harmony, phrasing and
tension/resolution sub-scores of Variant B lie in `[0,20]`; the contour
sub-score (whenever it is defined, i.e. the melody has at least 4 notes) and
the total are clamped from above only — contour at 20 and the total at 100 —
and the contour sub-score, hence the total, can be negative. -/
theorem C2_bounds_amended (m : List Int) :
    (0 ≤ evaluate_rhythm m ∧ evaluate_rhythm m ≤ 20) ∧
    (0 ≤ evaluate_harmony m ∧ evaluate_harmony m ≤ 20) ∧
    (0 ≤ evaluate_phrasing m ∧ evaluate_phrasing m ≤ 20) ∧
    (0 ≤ evaluate_tension_resolution m ∧ evaluate_tension_resolution m ≤ 20) ∧
    (∀ c, evaluate_contour m = .ok c → c ≤ 20) ∧
    (∀ t, evaluate_fitness m = .ok t → t ≤ 100) :=
  ⟨⟨evaluate_rhythm_nonneg m, evaluate_rhythm_le m⟩,
   ⟨evaluate_harmony_nonneg m, evaluate_harmony_le m⟩,
   ⟨evaluate_phrasing_nonneg m, evaluate_phrasing_le m⟩,
   ⟨evaluate_tension_resolution_nonneg m, evaluate_tension_resolution_le m⟩,
   fun c h => evaluate_contour_le m c h,
   fun t h => evaluate_fitness_le m t h⟩

/-- C2 (witness): the amended bounds at the ascending C-major melody, whose
contour sub-score is 3.5 and whose total is defined. -/
theorem C2_bounds_witness :
    evaluate_contour [60, 62, 64, 65, 67, 69, 71, 72] = .ok (mkRat 7 2) ∧
    mkRat 7 2 ≤ 20 ∧
    0 ≤ evaluate_rhythm [60, 62, 64, 65, 67, 69, 71, 72] :=
  ⟨by decide,
   (C2_bounds_amended [60, 62, 64, 65, 67, 69, 71, 72]).2.2.2.2.1 _ (by decide),
   (C2_bounds_amended [60, 62, 64, 65, 67, 69, 71, 72]).1.1⟩

/-- C3 (code bug): on the empty sequence, Variant A and Variant C return the
defined minimum 0, but Variant B (`Generator._evaluate_fitness`) raises
`ZeroDivisionError` inside `_evaluate_contour` (`optimal_changes = 0 // 4 =
0` is used as a divisor) instead of returning a defined minimum. -/
theorem C3_empty_sequence :
    evaluate_fitness [] = Except.error EvalErr.zeroDivision ∧
    default_fitness [] = 0 ∧
    (∀ c : Criteria, generated_fitness c [] = 0) :=
  ⟨by decide, by decide, fun _ => rfl⟩

/-- C9: the Variant C evaluator built from the rubric text "The melody
should be in a high range." parses the preferred range `(67, 79)` and scores
`[68,70,72,74,76,78]` at 11.5, which is strictly positive. -/
theorem C9_high_range_scenario :
    (parse_prompt_response "The melody should be in a high range.").preferredRange
      = (67, 79) ∧
    generated_fitness (parse_prompt_response "The melody should be in a high range.")
      [68, 70, 72, 74, 76, 78] = mkRat 23 2 ∧
    0 < generated_fitness (parse_prompt_response "The melody should be in a high range.")
      [68, 70, 72, 74, 76, 78] :=
  ⟨by decide, by decide, by decide⟩

/-- C10: package initialization fails with `EnvironmentError` exactly when
`ANTHROPIC_API_KEY` is absent from the (post-`load_dotenv`) environment, and
succeeds exactly when it is present, for every environment. -/
theorem C10_env_key_gate (env : List String) :
    (package_init env = Except.ok () ↔ "ANTHROPIC_API_KEY" ∈ env) ∧
    (package_init env = Except.error PkgError.environmentError
      ↔ "ANTHROPIC_API_KEY" ∉ env) := by
  by_cases h : "ANTHROPIC_API_KEY" ∈ env
  · have hc : env.contains "ANTHROPIC_API_KEY" = true := by
      rw [List.contains_eq_any_beq]
      exact List.any_eq_true.mpr ⟨_, h, by simp⟩
    simp [package_init, hc, h]
  · have hc : env.contains "ANTHROPIC_API_KEY" = false := by
      by_contra hcc
      rw [Bool.not_eq_false, List.contains_eq_any_beq, List.any_eq_true] at hcc
      obtain ⟨x, hx, hbeq⟩ := hcc
      rw [beq_iff_eq] at hbeq
      exact h (by rw [hbeq]; exact hx)
    simp [package_init, hc, h]

theorem mutateAux_rate_zero (scale : List Int) (r : Nat → Rat) (c : Nat → Nat)
    (hr : ∀ i, 0 ≤ r i) :
    ∀ (m : List Int) (i : Nat), mutateAux scale 0 r c i m = m := by
  intro m
  induction m with
  | nil => intro i; rfl
  | cons note rest ih =>
    intro i
    unfold mutateAux
    rw [if_neg (not_lt.mpr (hr i)), ih (i + 1)]

theorem mutateAux_rate_one (scale : List Int) (r : Nat → Rat) (c : Nat → Nat)
    (hr : ∀ i, r i < 1) :
    ∀ (m : List Int) (i : Nat),
      mutateAux scale 1 r c i m
        = (List.range m.length).map (fun j => choose scale (c (i + j))) := by
  intro m
  induction m with
  | nil => intro i; rfl
  | cons note rest ih =>
    intro i
    unfold mutateAux
    rw [if_pos (hr i), ih (i + 1)]
    rw [List.length_cons, List.range_succ_eq_map, List.map_cons, List.map_map]
    congr 1
    apply List.map_congr_left
    intro j _
    simp only [Function.comp_apply, Nat.succ_eq_add_one]
    exact congrArg (fun n => choose scale (c n)) (by omega)

/-- C4: mutation at rate 0 is an exact no-op (every `random.random()` draw
is at least 0, so no position is replaced), and at rate 1 every position is
independently redrawn from the scale (every draw is below 1, so every
position is replaced by its `random.choice` result). -/
theorem C4_mutation_rates (scale m : List Int) (r : Nat → Rat) (c : Nat → Nat) :
    ((∀ i, 0 ≤ r i) → mutate scale m 0 r c = m) ∧
    ((∀ i, r i < 1) →
      mutate scale m 1 r c = (List.range m.length).map (fun j => choose scale (c j))) := by
  constructor
  · intro hr
    exact mutateAux_rate_zero scale r c hr m 0
  · intro hr
    have h := mutateAux_rate_one scale r c hr m 0
    simpa using h

/-- C4 (witness): the two rate laws at a concrete melody and concrete
oracle streams. -/
theorem C4_mutation_witness :
    mutate C_MAJOR [60, 100] 0 (fun _ => 0) (fun _ => 3) = [60, 100] ∧
    mutate C_MAJOR [60, 100] 1 (fun _ => 0) (fun _ => 3)
      = (List.range ([60, 100] : List Int).length).map (fun _ => choose C_MAJOR 3) :=
  ⟨(C4_mutation_rates C_MAJOR [60, 100] (fun _ => 0) (fun _ => 3)).1 (fun _ => le_refl 0),
   (C4_mutation_rates C_MAJOR [60, 100] (fun _ => 0) (fun _ => 3)).2 (fun _ => by decide)⟩

/-- C5: for equal-length parents of length at least 2 and any cut point in
`[1, L-1]` (the range `random.randint(1, len-1)` draws from), crossover
returns `parentA[0:cut] + parentB[cut:]`, a sequence of length L; and the
spec scenario with cut point 4 yields the stated melody. -/
theorem C5_crossover_single_point (p1 p2 : List Int) (cut : Nat)
    (hlen : p1.length = p2.length) (h2 : 2 ≤ p1.length) (hc1 : 1 ≤ cut)
    (hc2 : cut ≤ p1.length - 1) :
    crossover_full p1 p2 cut = Except.ok (p1.take cut ++ p2.drop cut) ∧
    (p1.take cut ++ p2.drop cut).length = p1.length ∧
    crossover_full [60, 62, 64, 65, 67, 69, 71, 72] [72, 71, 69, 67, 65, 64, 62, 60] 4
      = Except.ok [60, 62, 64, 65, 65, 64, 62, 60] := by
  refine ⟨?_, ?_, by decide⟩
  · unfold crossover_full
    rw [if_neg (by omega : ¬(p1.length - 1 < 1))]
    rfl
  · rw [List.length_append, List.length_take, List.length_drop]
    have hmin : min cut p1.length = cut := Nat.min_eq_left (by omega)
    omega

/-- C5 (witness): the crossover law applied at the spec's concrete parents
with cut point 4. -/
theorem C5_crossover_witness :
    crossover_full [60, 62, 64, 65, 67, 69, 71, 72] [72, 71, 69, 67, 65, 64, 62, 60] 4
      = Except.ok (([60, 62, 64, 65, 67, 69, 71, 72] : List Int).take 4
          ++ ([72, 71, 69, 67, 65, 64, 62, 60] : List Int).drop 4) ∧
    (([60, 62, 64, 65, 67, 69, 71, 72] : List Int).take 4
        ++ ([72, 71, 69, 67, 65, 64, 62, 60] : List Int).drop 4).length
      = ([60, 62, 64, 65, 67, 69, 71, 72] : List Int).length :=
  ⟨(C5_crossover_single_point [60, 62, 64, 65, 67, 69, 71, 72]
      [72, 71, 69, 67, 65, 64, 62, 60] 4 (by decide) (by decide) (by decide) (by decide)).1,
   (C5_crossover_single_point [60, 62, 64, 65, 67, 69, 71, 72]
      [72, 71, 69, 67, 65, 64, 62, 60] 4 (by decide) (by decide) (by decide) (by decide)).2.1⟩

/-- C6 (counterexample): two parents of unequal lengths for which crossover
does not fail — it returns `parentA[0:cut] + parentB[cut:]` (here of the
second parent's length), so no InvalidArgument condition is raised. -/
theorem C6_counterexample :
    ([60, 62, 64] : List Int).length ≠ ([72, 71, 69, 67] : List Int).length ∧
    crossover_full [60, 62, 64] [72, 71, 69, 67] 1 = Except.ok [60, 71, 69, 67] :=
  ⟨by decide, by decide⟩

/-- C6 (amended): `Generator._crossover` performs no length validation; for
parents of unequal lengths (first parent of length at least 2, cut in the
`randint` range) it returns `parentA[0:cut] + parentB[cut:]` instead of
failing. -/
theorem C6_no_length_check_amended (p1 p2 : List Int) (cut : Nat)
    (hne : p1.length ≠ p2.length) (h2 : 2 ≤ p1.length) (hc1 : 1 ≤ cut)
    (hc2 : cut ≤ p1.length - 1) :
    crossover_full p1 p2 cut = Except.ok (p1.take cut ++ p2.drop cut) := by
  unfold crossover_full
  rw [if_neg (by omega : ¬(p1.length - 1 < 1))]
  rfl

/-- C6 (witness): the amended statement at concrete unequal-length parents. -/
theorem C6_no_length_check_witness :
    crossover_full [60, 62, 64, 65] [72, 71] 2
      = Except.ok (([60, 62, 64, 65] : List Int).take 2 ++ ([72, 71] : List Int).drop 2) :=
  C6_no_length_check_amended [60, 62, 64, 65] [72, 71] 2
    (by decide) (by decide) (by decide) (by decide)

theorem choose_mem (l : List Int) (i : Nat) (h : l ≠ []) : choose l i ∈ l := by
  unfold choose
  have hlen : 0 < l.length := List.length_pos.mpr h
  have hlt : i % l.length < l.length := Nat.mod_lt _ hlen
  rw [List.getD_eq_getElem l 0 hlt]
  exact List.getElem_mem hlt

theorem mutateAux_mem (scale : List Int) (rate : Rat) (r : Nat → Rat) (c : Nat → Nat)
    (hs : scale ≠ []) :
    ∀ (m : List Int) (i : Nat), (∀ note ∈ m, note ∈ scale) →
      ∀ note ∈ mutateAux scale rate r c i m, note ∈ scale := by
  intro m
  induction m with
  | nil => intro i _ note hn; cases hn
  | cons x rest ih =>
    intro i h note hn
    unfold mutateAux at hn
    rcases List.mem_cons.mp hn with h1 | h2
    · rw [h1]
      split
      · exact choose_mem _ _ hs
      · exact h x (List.mem_cons_self x rest)
    · exact ih (i + 1) (fun y hy => h y (List.mem_cons_of_mem _ hy)) note h2

/-- C7: with the active Scale C major, every note of every melody produced
by population initialization or by boundary-note random melody creation is
in the Scale, and mutation maps melodies whose notes are in the Scale to
melodies whose notes are in the Scale. -/
theorem C7_scale_membership (len psize : Nat) (idx : Nat → Nat → Nat) (b : Nat → Nat)
    (m : List Int) (rate : Rat) (r : Nat → Rat) (c : Nat → Nat) :
    (∀ mel ∈ initialize_population C_MAJOR len psize idx, ∀ note ∈ mel, note ∈ C_MAJOR) ∧
    (∀ note ∈ create_random_melody C_MAJOR len b, note ∈ C_MAJOR) ∧
    ((∀ note ∈ m, note ∈ C_MAJOR) →
      ∀ note ∈ mutate C_MAJOR m rate r c, note ∈ C_MAJOR) := by
  refine ⟨?_, ?_, ?_⟩
  · intro mel hmel note hnote
    simp only [initialize_population, List.mem_map] at hmel
    obtain ⟨p, _, rfl⟩ := hmel
    simp only [List.mem_map] at hnote
    obtain ⟨i, _, rfl⟩ := hnote
    exact choose_mem _ _ (by decide)
  · intro note hnote
    simp only [create_random_melody, List.mem_map] at hnote
    obtain ⟨i, _, rfl⟩ := hnote
    split
    · have hm : choose [60, 67] (b i) ∈ ([60, 67] : List Int) :=
        choose_mem _ _ (by decide)
      rcases List.mem_cons.mp hm with h1 | h1
      · rw [h1]; decide
      · simp only [List.mem_singleton] at h1
        rw [h1]; decide
    · split
      · have hm : choose [60, 64] (b i) ∈ ([60, 64] : List Int) :=
          choose_mem _ _ (by decide)
        rcases List.mem_cons.mp hm with h1 | h1
        · rw [h1]; decide
        · simp only [List.mem_singleton] at h1
          rw [h1]; decide
      · exact choose_mem _ _ (by decide)
  · intro h
    exact mutateAux_mem C_MAJOR rate r c (by decide) m 0 h

/-- C7 (witness): the mutation clause applied to the concrete in-scale
melody `[60]` with concrete streams. -/
theorem C7_scale_membership_witness : (60 : Int) ∈ C_MAJOR :=
  (C7_scale_membership 4 2 (fun _ _ => 0) (fun _ => 0) [60] (mkRat 1 2) (fun _ => 0)
    (fun _ => 0)).2.2 (by decide) 60 (by decide)

theorem evolveGen_const_none (cst : Rat) (scale : List Int) (len psize : Nat)
    (rnd : GARandom) (g : Nat) (s : EvoState) (h : s.bestFitness = none) :
    (evolveGen (fun _ => cst) scale len psize rnd g s).bestFitness = some cst ∧
    (evolveGen (fun _ => cst) scale len psize rnd g s).gwi = 0 := by
  simp [evolveGen, gtBest, h]

theorem evolveGen_const_some (cst : Rat) (scale : List Int) (len psize : Nat)
    (rnd : GARandom) (g : Nat) (s : EvoState) (h : s.bestFitness = some cst) :
    (evolveGen (fun _ => cst) scale len psize rnd g s).bestFitness = some cst ∧
    (evolveGen (fun _ => cst) scale len psize rnd g s).gwi = s.gwi + 1 := by
  simp [evolveGen, gtBest, h, lt_irrefl]

theorem runGens_const_stagnation (cst : Rat) (scale : List Int) (len psize : Nat)
    (rnd : GARandom) :
    ∀ (n g : Nat) (s : EvoState), s.bestFitness = some cst → s.gwi ≤ 100 →
      101 - s.gwi ≤ n →
      (runGens (fun _ => cst) scale len psize rnd n g s).2.1 = 101 - s.gwi ∧
      (runGens (fun _ => cst) scale len psize rnd n g s).2.2 = true := by
  intro n
  induction n with
  | zero =>
    intro g s _ h2 h3
    exact absurd h3 (by omega)
  | succ k ih =>
    intro g s h1 h2 h3
    have hs := evolveGen_const_some cst scale len psize rnd g s h1
    unfold runGens
    by_cases hbr : 100 < (evolveGen (fun _ => cst) scale len psize rnd g s).gwi
    · rw [if_pos hbr]
      have hgw : s.gwi = 100 := by omega
      exact ⟨by simp [hgw], rfl⟩
    · rw [if_neg hbr]
      have h2' : (evolveGen (fun _ => cst) scale len psize rnd g s).gwi ≤ 100 := by omega
      have h3' :
          101 - (evolveGen (fun _ => cst) scale len psize rnd g s).gwi ≤ k := by
        rw [hs.2]; rw [hs.2] at h2'; omega
      have hrec := ih (g + 1) _ hs.1 h2' h3'
      dsimp only
      refine ⟨?_, hrec.2⟩
      rw [hrec.1, hs.2]
      omega

theorem runGens_const_from_start (cst : Rat) (scale : List Int) (len psize : Nat)
    (rnd : GARandom) (n g : Nat) (s : EvoState) (h : s.bestFitness = none)
    (hn : 102 ≤ n) :
    (runGens (fun _ => cst) scale len psize rnd n g s).2.1 = 102 ∧
    (runGens (fun _ => cst) scale len psize rnd n g s).2.2 = true := by
  obtain ⟨k, rfl⟩ : ∃ k, n = k + 1 := ⟨n - 1, by omega⟩
  have h0 := evolveGen_const_none cst scale len psize rnd g s h
  unfold runGens
  rw [if_neg (by rw [h0.2]; omega)]
  have hrec := runGens_const_stagnation cst scale len psize rnd k (g + 1) _ h0.1
    (by rw [h0.2]; omega) (by rw [h0.2]; omega)
  dsimp only
  refine ⟨?_, hrec.2⟩
  rw [hrec.1, h0.2]

/-- C8: with a fitness evaluator that returns the same constant score for
every input and a generation budget of at least 102, the evolution loop
terminates through the stagnation early stop: generation 0 improves on the
initial `-inf`, every later generation increments the stagnation counter,
and the `> 100` break fires during the generation with index
`stagnation_limit + 1 = 101`, i.e. after exactly `100 + 2` executed
generations — at the (stagnation_limit + 1)-th generation in the code's own
0-based counting. The population-size and length bounds keep the run inside
the domain where the Python code raises no exception. -/
theorem C8_constant_fitness_early_stop (cst : Rat) (scale : List Int)
    (len psize generations : Nat) (rate0 : Rat) (initIdx : Nat → Nat → Nat)
    (rnd : GARandom) (hp : 3 ≤ psize) (hl : 2 ≤ len) (hg : 102 ≤ generations) :
    (create_melody (fun _ => cst) scale len psize generations rate0 initIdx rnd).2.2
      = true ∧
    (create_melody (fun _ => cst) scale len psize generations rate0 initIdx rnd).2.1
      = 100 + 2 := by
  unfold create_melody
  have h := runGens_const_from_start cst scale len psize rnd generations 0
    { population := initialize_population scale len psize initIdx,
      bestFitness := none, gwi := 0, rate := rate0 } rfl hg
  exact ⟨h.2, h.1⟩

/-- C8 (witness): the early stop at a fully concrete configuration —
constant score 5, C-major scale, length 2, population 3, budget 102. -/
theorem C8_constant_fitness_witness :
    (create_melody (fun _ => (5 : Rat)) C_MAJOR 2 3 102 (mkRat 1 10) (fun _ _ => 0)
      ⟨fun _ _ => ⟨1, [], [], 1, fun _ => 0, fun _ => 0, fun _ => 0⟩⟩).2.2 = true ∧
    (create_melody (fun _ => (5 : Rat)) C_MAJOR 2 3 102 (mkRat 1 10) (fun _ _ => 0)
      ⟨fun _ _ => ⟨1, [], [], 1, fun _ => 0, fun _ => 0, fun _ => 0⟩⟩).2.1 = 100 + 2 :=
  C8_constant_fitness_early_stop 5 C_MAJOR 2 3 102 (mkRat 1 10) (fun _ _ => 0)
    ⟨fun _ _ => ⟨1, [], [], 1, fun _ => 0, fun _ => 0, fun _ => 0⟩⟩
    (by decide) (by decide) (by decide)

end PixelHarmony
